import Mathlib

/-!
Verification development for the Gogol search engine.

The frontend records and operations (SearchResult, SearchResponse,
HealthResponse, IndexStats, SearchService, App.onSearch) are embedded from
the Angular sources (the service file and app.ts). The indexing and query
backend is not present in the source tree; it is modelled from the spec, as
marked on each such definition.
-/

/- ## Frontend data model, from the service source file -/

/-- Record of one search hit, mirroring the SearchResult interface:
fields doc_id, title, url, score. -/
structure SearchResult where
  doc_id : Nat
  title : String
  url : String
  score : ℚ
deriving DecidableEq, Repr

/-- Record of a whole search response, mirroring the SearchResponse
interface: fields query, processed_terms, total_results, results. -/
structure SearchResponse where
  query : String
  processed_terms : List String
  total_results : Nat
  results : List SearchResult
deriving DecidableEq, Repr

/-- Record of the health endpoint response, mirroring the HealthResponse
interface: fields status, message, index_ready. -/
structure HealthResponse where
  status : String
  message : String
  index_ready : Bool
deriving DecidableEq, Repr

/-- Record of the stats endpoint response, mirroring the IndexStats
interface: fields total_documents, total_terms, total_postings, db_path,
db_size_mb. -/
structure IndexStats where
  total_documents : Nat
  total_terms : Nat
  total_postings : Nat
  db_path : String
  db_size_mb : ℚ
deriving DecidableEq, Repr

/- ## SearchService, from the service source file -/

/-- Model of an outgoing HTTP GET request: a url and its query parameters. -/
structure ApiRequest where
  url : String
  params : List (String × String)
deriving DecidableEq, Repr

namespace SearchService

/-- Base url of the API, from the service source. -/
def apiUrl : String := "http://127.0.0.1:8000/api"

/-- Default value of the limit parameter of search, from its signature. -/
def defaultLimit : Int := 10

/-- Embedding of SearchService.search: builds the GET request with the query
as the q parameter and the limit rendered as a decimal string. -/
def search (query : String) (limit : Int) : ApiRequest :=
  { url := apiUrl ++ "/search"
    params := [("q", query), ("limit", toString limit)] }

/-- Embedding of a call to SearchService.search with the limit argument
absent: the declared default of 10 is used. -/
def searchNoLimit (query : String) : ApiRequest :=
  search query defaultLimit

/-- Embedding of SearchService.getHealth: a GET request on the health
endpoint. -/
def getHealth : ApiRequest :=
  { url := apiUrl ++ "/health", params := [] }

/-- Embedding of SearchService.getStats: a GET request on the stats
endpoint. -/
def getStats : ApiRequest :=
  { url := apiUrl ++ "/stats", params := [] }

end SearchService

/- ## App component, from app.ts -/

/-- Mutable signals of the App component that onSearch touches. -/
structure AppState where
  query : String
  searchResults : Option SearchResponse
  isLoading : Bool
  errorMessage : Option String
deriving DecidableEq, Repr

/-- Embedding of the trim method on strings: removes leading and trailing
whitespace characters. -/
def jsTrim (s : String) : String :=
  ⟨((s.data.dropWhile Char.isWhitespace).reverse.dropWhile
      Char.isWhitespace).reverse⟩

namespace App

/-- Embedding of App.onSearch: trims the query; an empty trimmed query sets
the error message and issues no request; otherwise it clears the error and
previous results, sets the loading flag, and issues the search request with
limit 10. The second component is the API request issued, if any. -/
def onSearch (s : AppState) : AppState × Option ApiRequest :=
  let q := jsTrim s.query
  if q = "" then
    ({ s with errorMessage := some "Veuillez entrer une requête" }, none)
  else
    ({ s with isLoading := true, errorMessage := none, searchResults := none },
      some (SearchService.search q 10))

end App

/- ## Text Normalizer, modelled from the spec -/

/-- Modelled from the spec: the French stop-word set used by the normalizer
(the real configuration of about 150 NLTK stop words is not in the source
tree; a representative deterministic subset stands in). -/
def stopWords : List String :=
  ["le", "la", "les", "de", "des", "du", "un", "une", "et", "est", "sont",
   "en", "dans", "sur", "pour", "par", "avec", "que", "qui", "pas", "plus",
   "son", "ses", "aux", "ces", "mais", "comme", "tout", "nous", "vous",
   "ils", "elle", "leur", "bien", "sans", "peut"]

/-- Modelled from the spec: a letter usable inside a token; accented latin
letters count as in-word characters, not separators. -/
def isWordChar (c : Char) : Bool :=
  c.isAlpha || (0xC0 ≤ c.toNat && c.toNat ≤ 0x17F)

/-- Tokenizer worker: walks the character list, accumulating the current
word reversed, and emits a token at each separator. -/
def tokenizeGo : List Char → List Char → List (List Char)
  | [], acc => if acc.isEmpty then [] else [acc.reverse]
  | c :: cs, acc =>
    if isWordChar c then tokenizeGo cs (c :: acc)
    else if acc.isEmpty then tokenizeGo cs []
    else acc.reverse :: tokenizeGo cs []

/-- Modelled from the spec: tokenize on word boundaries; maximal runs of
word characters become tokens. -/
def tokenize (s : String) : List String :=
  (tokenizeGo s.data []).map (fun cs => ⟨cs⟩)

/-- Lowercasing on the character list of a string. -/
def toLowerStr (s : String) : String :=
  ⟨s.data.map Char.toLower⟩

/-- Length of a string in characters. -/
def strLen (s : String) : Nat :=
  s.data.length

/-- Modelled from the spec: a deterministic language-specific stemmer (the
real Snowball FrenchStemmer is not in the source tree; a simplified
deterministic suffix-stripping reduction stands in, with the same contract:
same input always yields the same stem). -/
def frStem (s : String) : String :=
  match s.data.reverse with
  | 'x' :: 'u' :: 'a' :: rest => ⟨('u' :: 'a' :: rest).reverse⟩
  | 's' :: rest => ⟨rest.reverse⟩
  | 'e' :: rest => ⟨rest.reverse⟩
  | _ => s

/-- Modelled from the spec: the normalization pipeline, in order: tokenize,
lowercase, strip tokens outside the length range 3 to 50, drop stop words,
stem. A pure total function; the output keeps document order. -/
def normalizeText (text : String) : List String :=
  ((((tokenize text).map toLowerStr).filter
      (fun t => decide (3 ≤ strLen t) && decide (strLen t ≤ 50)
        && !(stopWords.contains t))).map frStem)

/- ## Index data model, modelled from the spec -/

/-- Modelled from the spec: one raw crawled document as delivered by the
crawler, with the stable integer identity the store assigns it. -/
structure RawDoc where
  doc_id : Nat
  url : String
  title : String
  text : String
deriving DecidableEq, Repr

/-- Modelled from the spec: the persisted Document record. -/
structure Document where
  doc_id : Nat
  url : String
  title : String
  term_count : Nat
deriving DecidableEq, Repr

/-- Modelled from the spec: the persisted Term record. -/
structure Term where
  term_id : Nat
  stem : String
  document_frequency : Nat
  total_occurrences : Nat
deriving DecidableEq, Repr

/-- Modelled from the spec: the persisted Posting record, one per
(term, document) pair. -/
structure Posting where
  term_id : Nat
  doc_id : Nat
  term_frequency : Nat
  tf_idf_score : ℚ
  positions : List Nat
deriving DecidableEq, Repr

/-- Modelled from the spec: the persistent index store with its corpus-wide
document count. -/
structure IndexStore where
  documents : List Document
  terms : List Term
  postings : List Posting
  total_documents : Nat
deriving DecidableEq, Repr

/- ## Index Builder, modelled from the spec -/

/-- Test of whether a raw document contains a given stem after
normalization. -/
def containsStem (r : RawDoc) (s : String) : Bool :=
  (normalizeText r.text).contains s

/-- Modelled from the spec: document frequency of a stem, the number of
documents of the corpus containing it. -/
def dfOf (corpus : List RawDoc) (s : String) : Nat :=
  (corpus.filter (fun r => containsStem r s)).length

/-- Modelled from the spec: corpus-wide occurrence count of a stem. -/
def totalOccOf (corpus : List RawDoc) (s : String) : Nat :=
  (corpus.map (fun r => (normalizeText r.text).count s)).sum

/-- Modelled from the spec: the vocabulary, one entry per distinct stem of
the corpus. -/
def vocab (corpus : List RawDoc) : List String :=
  (corpus.flatMap (fun r => normalizeText r.text)).dedup

/-- Positions of a stem inside a normalized token stream. -/
def positionsOf (s : String) (stems : List String) : List Nat :=
  (stems.enum.filter (fun p => p.2 == s)).map Prod.fst

/-- Modelled from the spec: the stored weight, normalized term frequency
times the inverse document frequency, with the logarithm abstracted as a
parameter. -/
def tfIdfOf (logFn : ℚ → ℚ) (corpus : List RawDoc) (s : String)
    (r : RawDoc) : ℚ :=
  (((normalizeText r.text).count s : ℚ) / ((normalizeText r.text).length : ℚ))
    * logFn ((corpus.length : ℚ) / (dfOf corpus s : ℚ))

/-- Modelled from the spec: the posting written for one stem of one
document. -/
def mkPosting (logFn : ℚ → ℚ) (corpus : List RawDoc) (s : String)
    (r : RawDoc) : Posting :=
  { term_id := (vocab corpus).indexOf s
    doc_id := r.doc_id
    term_frequency := (normalizeText r.text).count s
    tf_idf_score := tfIdfOf logFn corpus s r
    positions := positionsOf s (normalizeText r.text) }

/-- Modelled from the spec: all postings of a build, one per (stem,
document) pair with the stem occurring in the document. -/
def buildPostings (logFn : ℚ → ℚ) (corpus : List RawDoc) : List Posting :=
  (vocab corpus).flatMap (fun s =>
    (corpus.filter (fun r => containsStem r s)).map (mkPosting logFn corpus s))

/-- Modelled from the spec: the Term record built for one stem. -/
def mkTerm (corpus : List RawDoc) (s : String) : Term :=
  { term_id := (vocab corpus).indexOf s
    stem := s
    document_frequency := dfOf corpus s
    total_occurrences := totalOccOf corpus s }

/-- Modelled from the spec: the term table of a build. -/
def buildTerms (corpus : List RawDoc) : List Term :=
  (vocab corpus).map (mkTerm corpus)

/-- Modelled from the spec: the Document record written for one raw
document. -/
def mkDocument (r : RawDoc) : Document :=
  { doc_id := r.doc_id
    url := r.url
    title := r.title
    term_count := (normalizeText r.text).length }

/-- Modelled from the spec: the batch index build over a corpus. -/
def buildIndex (logFn : ℚ → ℚ) (corpus : List RawDoc) : IndexStore :=
  { documents := corpus.map mkDocument
    terms := buildTerms corpus
    postings := buildPostings logFn corpus
    total_documents := corpus.length }

/- ## Query Engine, modelled from the spec -/

/-- Modelled from the spec: fetch the Term record of a stem from the
store. -/
def findTerm (store : IndexStore) (s : String) : Option Term :=
  store.terms.find? (fun t => t.stem == s)

/-- Modelled from the spec: fetch the posting of a (term, document) pair
from the store. -/
def findPosting (store : IndexStore) (tid d : Nat) : Option Posting :=
  store.postings.find? (fun p => p.term_id == tid && p.doc_id == d)

/-- Modelled from the spec: the postings of a stem; an unknown stem yields
none, hence contributes nothing. -/
def postingsForStem (store : IndexStore) (s : String) : List Posting :=
  match findTerm store s with
  | none => []
  | some t => store.postings.filter (fun p => p.term_id == t.term_id)

/-- Modelled from the spec: the weight a stem contributes to a document:
the stored tf-idf of its posting, zero when the document misses the
term. -/
def tfidfFor (store : IndexStore) (s : String) (d : Nat) : ℚ :=
  match findTerm store s with
  | none => 0
  | some t =>
    match findPosting store t.term_id d with
    | none => 0
    | some p => p.tf_idf_score

/-- Modelled from the spec: the aggregate score of a document, the sum of
the stored tf-idf over all query stems matched in it. -/
def docScore (store : IndexStore) (stems : List String) (d : Nat) : ℚ :=
  (stems.map (fun s => tfidfFor store s d)).sum

/-- Modelled from the spec: the distinct candidate documents, those holding
a posting for at least one query stem. -/
def candidateDocs (store : IndexStore) (stems : List String) : List Nat :=
  (stems.flatMap (fun s => (postingsForStem store s).map Posting.doc_id)).dedup

/-- Modelled from the spec: a document with its aggregate score, before
presentation. -/
structure ScoredDoc where
  doc_id : Nat
  score : ℚ
deriving DecidableEq, Repr

/-- Ranking order of the result list: higher score first, ties by ascending
document id. -/
def rankLE (a b : ScoredDoc) : Prop :=
  b.score < a.score ∨ (a.score = b.score ∧ a.doc_id ≤ b.doc_id)

instance : DecidableRel rankLE := fun a b => by
  unfold rankLE
  infer_instance

instance : IsTotal ScoredDoc rankLE := by
  constructor
  intro a b
  rcases lt_trichotomy a.score b.score with h | h | h
  · exact Or.inr (Or.inl h)
  · rcases Nat.le_total a.doc_id b.doc_id with hd | hd
    · exact Or.inl (Or.inr ⟨h, hd⟩)
    · exact Or.inr (Or.inr ⟨h.symm, hd⟩)
  · exact Or.inl (Or.inl h)

instance : IsTrans ScoredDoc rankLE := by
  constructor
  rintro a b c (hab | ⟨hab, hab'⟩) (hbc | ⟨hbc, hbc'⟩)
  · exact Or.inl (hbc.trans hab)
  · exact Or.inl (hbc ▸ hab)
  · exact Or.inl (hab ▸ hbc)
  · exact Or.inr ⟨hab.trans hbc, hab'.trans hbc'⟩

/-- Modelled from the spec: score the candidates, sort by descending score
with ties by ascending document id, truncate to the limit. -/
def rankedResults (store : IndexStore) (stems : List String)
    (limit : Nat) : List ScoredDoc :=
  (List.insertionSort rankLE
    ((candidateDocs store stems).map
      (fun d => ⟨d, docScore store stems d⟩))).take limit

/-- Modelled from the spec: present one scored document as a search result,
joining in the title and url of its Document record. -/
def mkSearchResult (store : IndexStore) (r : ScoredDoc) : SearchResult :=
  match store.documents.find? (fun d => d.doc_id == r.doc_id) with
  | some d => { doc_id := r.doc_id, title := d.title, url := d.url
                score := r.score }
  | none => { doc_id := r.doc_id, title := "", url := "", score := r.score }

/-- Modelled from the spec: the query engine: normalize the query with the
build-time pipeline, keep the distinct stems; an empty stem list returns the
empty response rather than an error; otherwise rank the candidates and
truncate. -/
def searchCore (store : IndexStore) (query : String)
    (limit : Nat) : SearchResponse :=
  let stems := (normalizeText query).dedup
  if stems = [] then
    { query := query, processed_terms := [], total_results := 0, results := [] }
  else
    let rs := (rankedResults store stems limit).map (mkSearchResult store)
    { query := query, processed_terms := stems, total_results := rs.length
      results := rs }

/-- Modelled from the spec: limit handling of the search endpoint: an absent
or non-positive limit falls back to the default of 10; a positive limit is
used as given. -/
def effectiveLimit : Option Int → Nat
  | none => 10
  | some n => if n ≤ 0 then 10 else n.toNat

/-- Modelled from the spec: the search endpoint exposed to the serving
layer, a pure function of the query, the optional limit and the store. -/
def searchEndpoint (store : IndexStore) (query : String)
    (limit : Option Int) : SearchResponse :=
  searchCore store query (effectiveLimit limit)

/- ## Theorems on the frontend records -/

/-- C1: for every query, the search interface returns a record with exactly
the fields query, processed_terms, total_results, results, and each element
of results has exactly the fields doc_id, title, url, score: both record
types are fully determined by those projections. -/
theorem searchResponse_fields_exact :
    (∀ r r' : SearchResponse,
      r.query = r'.query → r.processed_terms = r'.processed_terms →
      r.total_results = r'.total_results → r.results = r'.results → r = r') ∧
    (∀ x x' : SearchResult,
      x.doc_id = x'.doc_id → x.title = x'.title →
      x.url = x'.url → x.score = x'.score → x = x') := by
  constructor
  · rintro ⟨q, p, t, rs⟩ ⟨q', p', t', rs'⟩ h1 h2 h3 h4
    simp_all
  · rintro ⟨d, t, u, sc⟩ ⟨d', t', u', sc'⟩ h1 h2 h3 h4
    simp_all

/-- Witness for the field-exactness of the search records at concrete
values. -/
theorem searchResponse_fields_exact_witness :
    (⟨"q", ["a"], 1, []⟩ : SearchResponse) = ⟨"q", ["a"], 1, []⟩ :=
  searchResponse_fields_exact.1 ⟨"q", ["a"], 1, []⟩ ⟨"q", ["a"], 1, []⟩
    rfl rfl rfl rfl

/-- C2 counterexample: the stats record is not determined by the fields
total_documents, total_terms, total_postings and the store size alone: two
concrete IndexStats values agree on all four yet differ, because the record
also carries a db_path field. -/
theorem indexStats_not_four_fields :
    ¬ (∀ r r' : IndexStats,
        r.total_documents = r'.total_documents →
        r.total_terms = r'.total_terms →
        r.total_postings = r'.total_postings →
        r.db_size_mb = r'.db_size_mb → r = r') := by
  intro H
  have h := H ⟨101, 6368, 426168, "a.db", 48⟩ ⟨101, 6368, 426168, "b.db", 48⟩
    rfl rfl rfl rfl
  simp at h

/-- C2 amended: the stats operation returns a record with exactly the fields
total_documents, total_terms, total_postings, db_path, db_size_mb: the
record is fully determined by those five projections. -/
theorem indexStats_fields_exact :
    ∀ r r' : IndexStats,
      r.total_documents = r'.total_documents →
      r.total_terms = r'.total_terms →
      r.total_postings = r'.total_postings →
      r.db_path = r'.db_path →
      r.db_size_mb = r'.db_size_mb → r = r' := by
  rintro ⟨a, b, c, d, e⟩ ⟨a', b', c', d', e'⟩ h1 h2 h3 h4 h5
  simp_all

/-- Witness for the amended stats field-exactness at concrete values. -/
theorem indexStats_fields_exact_witness :
    (⟨101, 6368, 426168, "gogol.db", 48⟩ : IndexStats)
      = ⟨101, 6368, 426168, "gogol.db", 48⟩ :=
  indexStats_fields_exact ⟨101, 6368, 426168, "gogol.db", 48⟩
    ⟨101, 6368, 426168, "gogol.db", 48⟩ rfl rfl rfl rfl rfl

/-- C3 counterexample: the health record is not determined by the fields
status and index_ready alone: two concrete HealthResponse values agree on
both yet differ, because the record also carries a message field. -/
theorem healthResponse_not_two_fields :
    ¬ (∀ h h' : HealthResponse,
        h.status = h'.status → h.index_ready = h'.index_ready → h = h') := by
  intro H
  have h := H ⟨"ok", "ready", true⟩ ⟨"ok", "still ready", true⟩ rfl rfl
  simp at h

/-- C3 amended: the health operation returns a record with exactly the
fields status, message, index_ready, and index_ready is a boolean: the
record is fully determined by those three projections and index_ready takes
only the two boolean values. -/
theorem healthResponse_fields_exact :
    (∀ h h' : HealthResponse,
      h.status = h'.status → h.message = h'.message →
      h.index_ready = h'.index_ready → h = h') ∧
    (∀ h : HealthResponse, h.index_ready = true ∨ h.index_ready = false) := by
  constructor
  · rintro ⟨s, m, i⟩ ⟨s', m', i'⟩ h1 h2 h3
    simp_all
  · intro h
    rcases h.index_ready with _ | _ <;> simp

/-- Witness for the amended health field-exactness at concrete values. -/
theorem healthResponse_fields_exact_witness :
    (⟨"ok", "ready", true⟩ : HealthResponse) = ⟨"ok", "ready", true⟩ :=
  healthResponse_fields_exact.1 ⟨"ok", "ready", true⟩ ⟨"ok", "ready", true⟩
    rfl rfl rfl

/- ## Theorems on App.onSearch -/

/-- C9: when the trimmed query is empty, onSearch issues no API request,
sets the error message to the French prompt, and leaves searchResults and
isLoading unchanged. -/
theorem onSearch_empty_query (s : AppState) (h : jsTrim s.query = "") :
    (App.onSearch s).2 = none ∧
    (App.onSearch s).1.errorMessage = some "Veuillez entrer une requête" ∧
    (App.onSearch s).1.searchResults = s.searchResults ∧
    (App.onSearch s).1.isLoading = s.isLoading := by
  simp [App.onSearch, h]

/-- Witness for the empty-query behaviour of onSearch on a whitespace
query. -/
theorem onSearch_empty_query_witness :
    jsTrim " " = "" ∧
    (App.onSearch ⟨" ", none, false, none⟩).2 = none := by
  refine ⟨by decide, ?_⟩
  exact (onSearch_empty_query ⟨" ", none, false, none⟩ (by decide)).1

/-- C10: when the trimmed query is nonempty, onSearch issues exactly the
search request with limit 10 on the trimmed text, and that request carries
the query verbatim as the q parameter and the limit as its decimal string
representation. -/
theorem onSearch_request (s : AppState) (h : ¬ jsTrim s.query = "") :
    (App.onSearch s).2 = some (SearchService.search (jsTrim s.query) 10) ∧
    ∀ q : String, ∀ limit : Int,
      SearchService.search q limit =
        { url := SearchService.apiUrl ++ "/search"
          params := [("q", q), ("limit", toString limit)] } := by
  constructor
  · simp [App.onSearch, h]
  · intro q limit
    rfl

/-- Witness for the request issued by onSearch on a concrete nonempty
query. -/
theorem onSearch_request_witness :
    ¬ jsTrim "loire" = "" ∧
    (App.onSearch ⟨"loire", none, false, none⟩).2 =
      some { url := "http://127.0.0.1:8000/api/search"
             params := [("q", "loire"), ("limit", "10")] } := by
  refine ⟨by decide, ?_⟩
  have h := onSearch_request ⟨"loire", none, false, none⟩ (by decide)
  rw [h.1]
  rfl

/- ## Theorems on the query engine -/

/-- C4: an absent or non-positive limit makes search proceed with the
default limit of 10, never failing; a positive limit is used as given. The
frontend default mirrors the declared default argument of the service. -/
theorem search_limit_defaulting (store : IndexStore) (q : String) (n : Int) :
    SearchService.searchNoLimit q = SearchService.search q 10 ∧
    searchEndpoint store q none = searchCore store q 10 ∧
    (n ≤ 0 → searchEndpoint store q (some n) = searchCore store q 10) ∧
    (0 < n → searchEndpoint store q (some n) = searchCore store q n.toNat) := by
  refine ⟨rfl, rfl, ?_, ?_⟩
  · intro h
    simp [searchEndpoint, effectiveLimit, if_pos h]
  · intro h
    simp [searchEndpoint, effectiveLimit, if_neg (not_le.mpr h)]

/-- Witness for limit defaulting at a concrete negative limit and a concrete
positive limit. -/
theorem search_limit_defaulting_witness :
    ((-3 : Int) ≤ 0 ∧
      searchEndpoint ⟨[], [], [], 0⟩ "loire" (some (-3)) =
        searchCore ⟨[], [], [], 0⟩ "loire" 10) ∧
    ((0 : Int) < 7 ∧
      searchEndpoint ⟨[], [], [], 0⟩ "loire" (some 7) =
        searchCore ⟨[], [], [], 0⟩ "loire" (Int.toNat 7)) :=
  ⟨⟨by decide,
    (search_limit_defaulting ⟨[], [], [], 0⟩ "loire" (-3)).2.2.1 (by decide)⟩,
   ⟨by decide,
    (search_limit_defaulting ⟨[], [], [], 0⟩ "loire" 7).2.2.2 (by decide)⟩⟩

/-- C5: a query whose normalization yields zero terms returns the empty
result set with zero total results and no processed terms, not an error. -/
theorem search_zero_terms (store : IndexStore) (q : String) (l : Option Int)
    (h : normalizeText q = []) :
    searchEndpoint store q l =
      { query := q, processed_terms := [], total_results := 0
        results := [] } := by
  simp [searchEndpoint, searchCore, h]

/-- Witness for the zero-term query on a concrete stop-word-only query. -/
theorem search_zero_terms_witness :
    normalizeText "les dans" = [] ∧
    searchEndpoint ⟨[], [], [], 0⟩ "les dans" none =
      { query := "les dans", processed_terms := [], total_results := 0
        results := [] } :=
  ⟨by decide, search_zero_terms ⟨[], [], [], 0⟩ "les dans" none (by decide)⟩

/-- C7: search is a deterministic function of the query text and the store:
two runs on an identical query, limit and unchanged store return identical
ranked results. -/
theorem search_deterministic (s₁ s₂ : IndexStore) (q₁ q₂ : String)
    (l₁ l₂ : Option Int) (hs : s₁ = s₂) (hq : q₁ = q₂) (hl : l₁ = l₂) :
    searchEndpoint s₁ q₁ l₁ = searchEndpoint s₂ q₂ l₂ := by
  rw [hs, hq, hl]

/-- Witness for determinism at a concrete store and query. -/
theorem search_deterministic_witness :
    searchEndpoint ⟨[], [], [], 0⟩ "loire" none =
      searchEndpoint ⟨[], [], [], 0⟩ "loire" none :=
  search_deterministic ⟨[], [], [], 0⟩ ⟨[], [], [], 0⟩ "loire" "loire"
    none none rfl rfl rfl

/-- C8: after a build, every posting's stored weight equals its normalized
term frequency times the logarithm of total documents over document
frequency, and the document frequency of its term is at least one by
construction, so the division of the IDF argument is never by zero. -/
theorem build_tfidf_formula (logFn : ℚ → ℚ) (corpus : List RawDoc)
    (p : Posting) (hp : p ∈ (buildIndex logFn corpus).postings) :
    ∃ t ∈ (buildIndex logFn corpus).terms,
      ∃ d ∈ (buildIndex logFn corpus).documents,
        t.term_id = p.term_id ∧ d.doc_id = p.doc_id ∧
        1 ≤ t.document_frequency ∧
        p.tf_idf_score =
          ((p.term_frequency : ℚ) / (d.term_count : ℚ)) *
            logFn (((buildIndex logFn corpus).total_documents : ℚ) /
              (t.document_frequency : ℚ)) := by
  simp only [buildIndex, buildPostings] at hp
  rw [List.mem_flatMap] at hp
  obtain ⟨s, hs, hp2⟩ := hp
  rw [List.mem_map] at hp2
  obtain ⟨r, hr, rfl⟩ := hp2
  have hrmem : r ∈ corpus := (List.mem_filter.mp hr).1
  refine ⟨mkTerm corpus s, ?_, mkDocument r, ?_, rfl, rfl, ?_, rfl⟩
  · exact List.mem_map.mpr ⟨s, hs, rfl⟩
  · exact List.mem_map.mpr ⟨r, hrmem, rfl⟩
  · exact List.length_pos.mpr (List.ne_nil_of_mem hr)

/-- Witness for the weight formula on a concrete one-document corpus with
the logarithm taken as the identity. -/
theorem build_tfidf_formula_witness :
    mkPosting (fun x => x) [⟨1, "u1", "Doc A", "chateau loire"⟩] "chateau"
        ⟨1, "u1", "Doc A", "chateau loire"⟩ ∈
      (buildIndex (fun x => x)
        [⟨1, "u1", "Doc A", "chateau loire"⟩]).postings ∧
    (∃ t ∈ (buildIndex (fun x => x)
        [⟨1, "u1", "Doc A", "chateau loire"⟩]).terms,
      ∃ d ∈ (buildIndex (fun x => x)
          [⟨1, "u1", "Doc A", "chateau loire"⟩]).documents,
        t.term_id = (mkPosting (fun x => x)
            [⟨1, "u1", "Doc A", "chateau loire"⟩] "chateau"
            ⟨1, "u1", "Doc A", "chateau loire"⟩).term_id ∧
        d.doc_id = (mkPosting (fun x => x)
            [⟨1, "u1", "Doc A", "chateau loire"⟩] "chateau"
            ⟨1, "u1", "Doc A", "chateau loire"⟩).doc_id ∧
        1 ≤ t.document_frequency ∧
        (mkPosting (fun x => x) [⟨1, "u1", "Doc A", "chateau loire"⟩]
            "chateau" ⟨1, "u1", "Doc A", "chateau loire"⟩).tf_idf_score =
          (((mkPosting (fun x => x) [⟨1, "u1", "Doc A", "chateau loire"⟩]
              "chateau"
              ⟨1, "u1", "Doc A", "chateau loire"⟩).term_frequency : ℚ) /
              (d.term_count : ℚ)) *
            (fun x => x) (((buildIndex (fun x => x)
                [⟨1, "u1", "Doc A", "chateau loire"⟩]).total_documents : ℚ) /
              (t.document_frequency : ℚ))) := by
  have hmem : mkPosting (fun x => x)
      [⟨1, "u1", "Doc A", "chateau loire"⟩] "chateau"
      ⟨1, "u1", "Doc A", "chateau loire"⟩ ∈
      (buildIndex (fun x => x)
        [⟨1, "u1", "Doc A", "chateau loire"⟩]).postings := by
    show _ ∈ (vocab _).flatMap _
    refine List.mem_flatMap.mpr ⟨"chateau", by decide, ?_⟩
    exact List.mem_map.mpr ⟨⟨1, "u1", "Doc A", "chateau loire"⟩, by decide, rfl⟩
  exact ⟨hmem,
    build_tfidf_formula (fun x => x) [⟨1, "u1", "Doc A", "chateau loire"⟩]
      (mkPosting (fun x => x) [⟨1, "u1", "Doc A", "chateau loire"⟩] "chateau"
        ⟨1, "u1", "Doc A", "chateau loire"⟩) hmem⟩

/-- Presentation keeps the document id of a scored document. -/
theorem mkSearchResult_doc_id (store : IndexStore) (r : ScoredDoc) :
    (mkSearchResult store r).doc_id = r.doc_id := by
  unfold mkSearchResult
  cases store.documents.find? (fun d => d.doc_id == r.doc_id) <;> rfl

/-- Presentation keeps the score of a scored document. -/
theorem mkSearchResult_score (store : IndexStore) (r : ScoredDoc) :
    (mkSearchResult store r).score = r.score := by
  unfold mkSearchResult
  cases store.documents.find? (fun d => d.doc_id == r.doc_id) <;> rfl

/-- Ranked results hold at most limit elements. -/
theorem rankedResults_length_le (store : IndexStore) (stems : List String)
    (limit : Nat) : (rankedResults store stems limit).length ≤ limit :=
  List.length_take_le _ _

/-- Ranked results are sorted under the ranking order. -/
theorem rankedResults_sorted (store : IndexStore) (stems : List String)
    (limit : Nat) : List.Pairwise rankLE (rankedResults store stems limit) := by
  unfold rankedResults
  exact List.Pairwise.sublist (List.take_sublist _ _)
    (List.sorted_insertionSort rankLE _)

/-- Ranked results carry pairwise distinct document ids, because the
candidates are deduplicated before scoring. -/
theorem rankedResults_docid_distinct (store : IndexStore)
    (stems : List String) (limit : Nat) :
    List.Pairwise (fun a b : ScoredDoc => a.doc_id ≠ b.doc_id)
      (rankedResults store stems limit) := by
  unfold rankedResults
  apply List.Pairwise.sublist (List.take_sublist _ _)
  have hperm := List.perm_insertionSort rankLE
    ((candidateDocs store stems).map
      (fun d => ⟨d, docScore store stems d⟩ : Nat → ScoredDoc))
  rw [hperm.pairwise_iff (fun hab => Ne.symm hab)]
  rw [List.pairwise_map]
  exact (List.nodup_dedup _).imp (fun h => h)

/-- Ranked results are strictly ordered: descending score with ties broken
by strictly ascending document id. -/
theorem rankedResults_ranked (store : IndexStore) (stems : List String)
    (limit : Nat) :
    List.Pairwise (fun a b : ScoredDoc =>
      b.score < a.score ∨ (a.score = b.score ∧ a.doc_id < b.doc_id))
      (rankedResults store stems limit) := by
  have h1 := rankedResults_sorted store stems limit
  have h2 := rankedResults_docid_distinct store stems limit
  refine (h1.and h2).imp ?_
  rintro a b ⟨hr | ⟨hs, hle⟩, hne⟩
  · exact Or.inl hr
  · exact Or.inr ⟨hs, lt_of_le_of_ne hle hne⟩

/-- Every ranked result's score is the aggregate score of its document. -/
theorem rankedResults_mem_score (store : IndexStore) (stems : List String)
    (limit : Nat) (r : ScoredDoc) (hr : r ∈ rankedResults store stems limit) :
    r.score = docScore store stems r.doc_id := by
  unfold rankedResults at hr
  have h2 := List.mem_of_mem_take hr
  rw [List.mem_insertionSort] at h2
  obtain ⟨d, _, rfl⟩ := List.mem_map.mp h2
  rfl

/-- Results of a query with surviving stems are the presented ranked
candidates. -/
theorem searchCore_results_eq (store : IndexStore) (q : String) (n : Nat)
    (h : ¬ (normalizeText q).dedup = []) :
    (searchCore store q n).results =
      (rankedResults store (normalizeText q).dedup n).map
        (mkSearchResult store) := by
  simp [searchCore, h]

/-- Results of a query with no surviving stems are empty. -/
theorem searchCore_results_empty (store : IndexStore) (q : String) (n : Nat)
    (h : (normalizeText q).dedup = []) :
    (searchCore store q n).results = [] := by
  simp [searchCore, h]

/-- C6: the returned results are ordered by descending aggregate score with
ties broken by ascending doc_id, hold at most limit elements, and each
result's score is the sum of the stored tf-idf weights over all query stems
matched in its document. -/
theorem search_results_ranked (store : IndexStore) (q : String)
    (l : Option Int) :
    (searchEndpoint store q l).results.length ≤ effectiveLimit l ∧
    List.Pairwise (fun a b : SearchResult =>
      b.score < a.score ∨ (a.score = b.score ∧ a.doc_id < b.doc_id))
      (searchEndpoint store q l).results ∧
    ∀ r ∈ (searchEndpoint store q l).results,
      r.score = docScore store (normalizeText q).dedup r.doc_id := by
  by_cases h : (normalizeText q).dedup = []
  · rw [searchEndpoint, searchCore_results_empty store q _ h]
    exact ⟨Nat.zero_le _, List.Pairwise.nil, by simp⟩
  · rw [searchEndpoint, searchCore_results_eq store q _ h]
    refine ⟨?_, ?_, ?_⟩
    · rw [List.length_map]
      exact rankedResults_length_le store _ _
    · rw [List.pairwise_map]
      refine (rankedResults_ranked store _ _).imp ?_
      intro a b hab
      simpa [mkSearchResult_score, mkSearchResult_doc_id] using hab
    · intro r hr
      obtain ⟨r0, hr0, rfl⟩ := List.mem_map.mp hr
      rw [mkSearchResult_score, mkSearchResult_doc_id]
      exact rankedResults_mem_score store _ _ r0 hr0

/-- Witness for the ranking property at a concrete store and query. -/
theorem search_results_ranked_witness :
    (searchEndpoint ⟨[], [], [], 0⟩ "loire" none).results.length ≤
      effectiveLimit none ∧
    List.Pairwise (fun a b : SearchResult =>
      b.score < a.score ∨ (a.score = b.score ∧ a.doc_id < b.doc_id))
      (searchEndpoint ⟨[], [], [], 0⟩ "loire" none).results ∧
    ∀ r ∈ (searchEndpoint ⟨[], [], [], 0⟩ "loire" none).results,
      r.score = docScore ⟨[], [], [], 0⟩
        (normalizeText "loire").dedup r.doc_id :=
  search_results_ranked ⟨[], [], [], 0⟩ "loire" none
